import Mathlib

/-!
Shallow embedding of the RecycLens browser client (static/upload.js and
static/camera.js, plus the near-duplicate variant pair found in the
repository), together with proofs about the UI state machine, the
classification request cycle, and the camera capture session.

Conventions of the embedding:
* DOM state that the scripts read or write (button disabled flags, element
  visibility, preview background image, text content) is carried in explicit
  state records.
* Side effects that leave the program (alert dialogs, the network POST,
  device-track operations) are recorded in event traces returned alongside
  the new state.
* Asynchronous callbacks (FileReader.onload, canvas.toBlob, fetch) are
  modelled by passing the callback's argument (the data URL, the blob
  result, the network outcome) as an explicit parameter and running the
  callback body as a pure function.
-/

namespace RecycLens

/-- A JS `File` object as the scripts use it: only `name` (for extension
validation) and `type` matter to the client code. -/
structure JsFile where
  name : String
  mime : String
  deriving Repr, DecidableEq

/-- Model of `name.split('.')` restricted to taking the LAST segment, i.e.
`name.split('.').pop()`: walk the characters, restarting the accumulator
after every dot.  JS `split` on a dot never yields an empty array, so `pop`
is total and returns the final segment ("" when the name ends in a dot,
the whole name when it has no dot). -/
def lastDotSegment : List Char → List Char → List Char
  | [], acc => acc.reverse
  | c :: rest, acc =>
      if c = '.' then lastDotSegment rest [] else lastDotSegment rest (c :: acc)

/-- Model of `file.name.split('.').pop().toLowerCase()` from `handleFile`
(upload.js line 75).  `toLowerCase` is modelled by `Char.toLower`, which
agrees with JS on the ASCII extensions the allow-set compares against. -/
def fileExtension (name : String) : String :=
  String.mk ((lastDotSegment name.data []).map Char.toLower)

/-- The allow-set from upload.js line 74: `["png", "jpg", "jpeg"]`. -/
def allowedExtensions : List String := ["png", "jpg", "jpeg"]

/-- The DOM state that upload.js reads and writes. `previewImage` holds the
data URL assigned to the preview's background image (the CSS `url(...)`
wrapper is elided), `none` when cleared. -/
structure UploadUI where
  previewImage : Option String
  previewActive : Bool
  previewAriaHidden : Bool
  dropzoneTextVisible : Bool
  submitDisabled : Bool
  spinnerVisible : Bool
  buttonText : String
  uploadFormVisible : Bool
  resultsPanelVisible : Bool
  predictionText : String
  deriving Repr, DecidableEq

/-- Module state of upload.js: the global `selectedFile` plus the DOM. -/
structure UploadState where
  selectedFile : Option JsFile
  ui : UploadUI
  deriving Repr, DecidableEq

/-- `showLoading(submitBtn)` (upload.js lines 16-23): disable the button,
show the spinner, set the caption. -/
def showLoading (st : UploadState) : UploadState :=
  { st with ui := { st.ui with
      submitDisabled := true
      spinnerVisible := true
      buttonText := "Classifying..." } }

/-- `hideLoading(submitBtn)` (upload.js lines 28-35): enable the button,
hide the spinner, restore the caption. -/
def hideLoading (st : UploadState) : UploadState :=
  { st with ui := { st.ui with
      submitDisabled := false
      spinnerVisible := false
      buttonText := "Classify Plastic" } }

/-- `displayResults(data)` (upload.js lines 41-60): write the prediction
label, hide the form, show the results panel, clear the preview. -/
def displayResults (st : UploadState) (prediction : String) : UploadState :=
  { st with ui := { st.ui with
      predictionText := prediction
      uploadFormVisible := false
      resultsPanelVisible := true
      previewImage := none
      previewAriaHidden := true
      previewActive := false } }

/-- Synchronous part of `handleFile(file, autoClassify)` (upload.js lines
69-111), up to the point where `reader.readAsDataURL(file)` is issued:
validate the extension; on mismatch alert and return with NO state change;
on success store the file and start the decode.  The returned `Bool` says
whether the decode was started (i.e. the `onload` callback is pending). -/
def handleFileSync (st : UploadState) (file : JsFile) :
    UploadState × List String × Bool :=
  if allowedExtensions.contains (fileExtension file.name) then
    ({ st with selectedFile := some file }, [], true)
  else
    (st, ["Invalid file type. Please upload a PNG, JPG, or JPEG image."], false)

/-- The `reader.onload` callback of `handleFile` (upload.js lines 86-110):
apply the decoded preview, hide the dropzone helper text, enable the submit
button; the returned `Bool` reports whether `classifyImage(null)` is then
invoked, which the code does exactly when `autoClassify` is set. -/
def applyPreview (st : UploadState) (dataUrl : String) (autoClassify : Bool) :
    UploadState × Bool :=
  ({ st with ui := { st.ui with
      previewImage := some dataUrl
      previewActive := true
      previewAriaHidden := false
      dropzoneTextVisible := false
      submitDisabled := false } },
   autoClassify)

/-- A complete run of `handleFile` through the finished preview decode:
the synchronous validation followed, when the decode was started, by the
`onload` callback with the produced data URL.  Returns the final state, the
alerts raised, and whether auto-classification was triggered. -/
def handleFileRun (st : UploadState) (file : JsFile) (autoClassify : Bool)
    (dataUrl : String) : UploadState × List String × Bool :=
  match handleFileSync st file with
  | (st1, alerts, true) =>
      let (st2, classify) := applyPreview st1 dataUrl autoClassify
      (st2, alerts, classify)
  | (st1, alerts, false) => (st1, alerts, false)

/-- Result of `await response.json()`: either the body fails to parse
(`json()` rejects, landing in the `catch` block) or it yields an object
with a `success` flag, an optional `error` string, and a `prediction`
string. -/
inductive JsonBody
  | malformed
  | parsed (success : Bool) (error : Option String) (prediction : String)
  deriving Repr, DecidableEq

/-- Outcome of `await fetch('/predict', ...)`: the transport throws, or a
response arrives with an `ok` flag and a body. -/
inductive FetchOutcome
  | throws
  | response (ok : Bool) (body : JsonBody)
  deriving Repr, DecidableEq

/-- Observable UI/network events emitted while `classifyImage` runs, in
program order. -/
inductive UIEvent
  | showLoadingEv
  | fetchEv
  | displayResultsEv
  | hideLoadingEv
  | alertEv (msg : String)
  deriving Repr, DecidableEq

/-- Model of JS `data.error || 'Unknown error'` (upload.js line 141): an
absent or empty (falsy) `error` field falls back to the default. -/
def errorOrUnknown : Option String → String
  | some e => if e = "" then "Unknown error" else e
  | none => "Unknown error"

/-- `classifyImage(e)` (upload.js lines 117-150) with the network outcome
passed explicitly.  Guard: with no `selectedFile`, alert and return before
any state change or fetch.  Otherwise `showLoading`, fetch, parse, branch
on `response.ok && data.success`, and — via `finally` — `hideLoading` on
every exit path.  Returns the final state and the emitted event trace. -/
def classifyImage (st : UploadState) (outcome : FetchOutcome) :
    UploadState × List UIEvent :=
  match st.selectedFile with
  | none => (st, [UIEvent.alertEv "Please select an image first."])
  | some _ =>
    let st1 := showLoading st
    match outcome with
    | FetchOutcome.throws =>
        (hideLoading st1,
         [UIEvent.showLoadingEv, UIEvent.fetchEv,
          UIEvent.alertEv "A network error occurred during classification. Check console.",
          UIEvent.hideLoadingEv])
    | FetchOutcome.response ok body =>
        match body with
        | JsonBody.malformed =>
            (hideLoading st1,
             [UIEvent.showLoadingEv, UIEvent.fetchEv,
              UIEvent.alertEv "A network error occurred during classification. Check console.",
              UIEvent.hideLoadingEv])
        | JsonBody.parsed success err pred =>
            if ok && success then
              (hideLoading (displayResults st1 pred),
               [UIEvent.showLoadingEv, UIEvent.fetchEv,
                UIEvent.displayResultsEv, UIEvent.hideLoadingEv])
            else
              (hideLoading st1,
               [UIEvent.showLoadingEv, UIEvent.fetchEv,
                UIEvent.alertEv ("Classification Error: " ++ errorOrUnknown err),
                UIEvent.hideLoadingEv])

/-- UIMode `PreviewReady` (spec section 4.4) as a predicate on the embedded
state: preview visible/active, the intake surface's helper text hidden, the
submit action enabled, and the intake form still shown. -/
def isPreviewReady (st : UploadState) : Prop :=
  st.ui.previewActive = true ∧
  st.ui.previewImage.isSome = true ∧
  st.ui.dropzoneTextVisible = false ∧
  st.ui.submitDisabled = false ∧
  st.ui.uploadFormVisible = true ∧
  st.ui.resultsPanelVisible = false

instance (st : UploadState) : Decidable (isPreviewReady st) := by
  unfold isPreviewReady; infer_instance

/-- UIMode `ResultShown` (spec section 4.4) as a predicate: result view in
place of the form, preview cleared, label populated. -/
def isResultShown (st : UploadState) (label : String) : Prop :=
  st.ui.resultsPanelVisible = true ∧
  st.ui.uploadFormVisible = false ∧
  st.ui.previewImage = none ∧
  st.ui.previewActive = false ∧
  st.ui.predictionText = label

instance (st : UploadState) (label : String) :
    Decidable (isResultShown st label) := by
  unfold isResultShown; infer_instance

/-- The page's DOM state right after `initUpload`: no preview, helper text
shown, form visible, results hidden, button in its rest caption.  The
submit button starts disabled per the PreviewReady contract. -/
def initialUI : UploadUI :=
  { previewImage := none
    previewActive := false
    previewAriaHidden := true
    dropzoneTextVisible := true
    submitDisabled := true
    spinnerVisible := false
    buttonText := "Classify Plastic"
    uploadFormVisible := true
    resultsPanelVisible := false
    predictionText := "" }

/-- Initial upload state: nothing selected. -/
def initialUpload : UploadState :=
  { selectedFile := none, ui := initialUI }

/-! ## Camera model (static/camera.js)

A `MediaStream` is identified by the `Nat` handed out when `getUserMedia`
resolves.  `liveStreams` collects the streams whose device tracks have not
been stopped; `cameraStream` is the module-level variable of camera.js. -/

/-- Device operations that leave the program: acquiring a stream and
stopping all tracks of a stream (`stream.getTracks().forEach(t =>
t.stop())`). -/
inductive DeviceOp
  | getUserMedia (streamId : Nat)
  | stopTracks (streamId : Nat)
  deriving Repr, DecidableEq

/-- Module state of camera.js: the `cameraStream` variable, the set of
streams with unstopped tracks, a fresh-id counter, and the DOM bits the
script toggles (`cameraFeed.srcObject`, `cameraInterface`, `dropzone`,
`btnScan` visibility). -/
structure CameraState where
  cameraStream : Option Nat
  liveStreams : List Nat
  nextId : Nat
  feedSrcObject : Option Nat
  cameraInterfaceVisible : Bool
  dropzoneVisible : Bool
  btnScanVisible : Bool
  deriving Repr, DecidableEq

/-- `stopCamera()` (camera.js lines 52-64): when `cameraStream` is set,
stop all its tracks and null the variable; unconditionally reset the UI
(detach the feed, hide the camera interface, show dropzone and scan
button).  Returns the emitted device operations. -/
def stopCamera (s : CameraState) : CameraState × List DeviceOp :=
  match s.cameraStream with
  | some id =>
      ({ s with
          cameraStream := none
          liveStreams := s.liveStreams.filter (fun j => j ≠ id)
          feedSrcObject := none
          cameraInterfaceVisible := false
          dropzoneVisible := true
          btnScanVisible := true },
       [DeviceOp.stopTracks id])
  | none =>
      ({ s with
          feedSrcObject := none
          cameraInterfaceVisible := false
          dropzoneVisible := true
          btnScanVisible := true },
       [])

/-- The success path of `startCamera()` (camera.js lines 27-39):
`getUserMedia` resolves with a fresh stream, which is assigned to
`cameraStream` WITHOUT any stop of tracks of a previously held stream;
the feed is attached and the UI switched to the camera interface. -/
def startCameraSuccess (s : CameraState) : CameraState × List DeviceOp :=
  let newId := s.nextId
  ({ s with
      cameraStream := some newId
      liveStreams := newId :: s.liveStreams
      nextId := s.nextId + 1
      feedSrcObject := some newId
      cameraInterfaceVisible := true
      dropzoneVisible := false
      btnScanVisible := false },
   [DeviceOp.getUserMedia newId])

/-- The failure path of `startCamera()` where `getUserMedia` itself
rejects: nothing was assigned; the catch block alerts and calls
`stopCamera()` defensively. -/
def startCameraFailEarly (s : CameraState) : CameraState × List DeviceOp :=
  stopCamera s

/-- The failure path of `startCamera()` where the stream was assigned but
`cameraFeed.play()` rejects: the catch block's `stopCamera()` then stops
the freshly assigned stream. -/
def startCameraFailLate (s : CameraState) : CameraState × List DeviceOp :=
  let newId := s.nextId
  let s1 : CameraState :=
    { s with
        cameraStream := some newId
        liveStreams := newId :: s.liveStreams
        nextId := s.nextId + 1
        feedSrcObject := some newId }
  let (s2, ops) := stopCamera s1
  (s2, DeviceOp.getUserMedia newId :: ops)

/-- Argument of the `canvas.toBlob` callback: a blob, or `null` when
encoding failed. -/
inductive BlobResult
  | ok
  | null
  deriving Repr, DecidableEq

/-- What `capturePhoto` did with the captured frame: nothing (guard
failed), handed a `File` to `window.handleFile` with the given
`autoClassify` flag, or alerted on encode failure. -/
inductive CaptureEffect
  | noSession
  | handed (autoClassify : Bool)
  | encodeFailed
  deriving Repr, DecidableEq

/-- `capturePhoto()` of static/camera.js (lines 69-110) with the `toBlob`
callback argument passed explicitly.  Guard `if (!cameraStream) return`.
On a non-null blob: `stopCamera()` first, then
`window.handleFile(capturedFile)` — NO second argument, so `autoClassify`
takes its default `false` in static/upload.js's `handleFile`.  On a null
blob: alert only; `stopCamera` is NOT called. -/
def capturePhoto (s : CameraState) (blob : BlobResult) :
    CameraState × List DeviceOp × CaptureEffect :=
  match s.cameraStream with
  | none => (s, [], CaptureEffect.noSession)
  | some _ =>
      match blob with
      | BlobResult.ok =>
          let (s1, ops) := stopCamera s
          (s1, ops, CaptureEffect.handed false)
      | BlobResult.null =>
          (s, [], CaptureEffect.encodeFailed)

/-- `capturePhoto()` of the camera.js variant kept in the repository
(src/unnamed/part_000 lines 290-332): identical except that it calls
`window.handleFile(capturedFile, true)`, passing the auto-classify flag. -/
def capturePhotoVariant (s : CameraState) (blob : BlobResult) :
    CameraState × List DeviceOp × CaptureEffect :=
  match s.cameraStream with
  | none => (s, [], CaptureEffect.noSession)
  | some _ =>
      match blob with
      | BlobResult.ok =>
          let (s1, ops) := stopCamera s
          (s1, ops, CaptureEffect.handed true)
      | BlobResult.null =>
          (s, [], CaptureEffect.encodeFailed)

/-- `handleFile(file)` of the upload.js variant kept in the repository
(src/unnamed/part_000 lines 63-93): same validation, but the function has
NO `autoClassify` parameter, so a second argument passed by a caller is
ignored and classification is never triggered from the preview callback.
Only the triggering of classification is modelled here (always `false`);
its DOM effects differ slightly (dropzone text replaced, submit enabled
synchronously) and are not needed by any claim. -/
def handleFileVariantTriggersClassify (_file : JsFile) : Bool :=
  false

/-- Events driving the camera state machine.  Clicks reach `startCamera`
only through the scan button's listener, and a button with `display:none`
cannot be clicked, hence the `btnScanVisible` guard on the start events;
`stopCamera` and `capturePhoto` guard themselves in code. -/
inductive CamEvent
  | startOk
  | startFailEarly
  | startFailLate
  | stop
  | snap (blob : BlobResult)
  deriving Repr, DecidableEq

/-- One step of the camera state machine: dispatch the event to the
modelled handler, applying the DOM guard for the start events. -/
def camStep (s : CameraState) (e : CamEvent) : CameraState × List DeviceOp :=
  match e with
  | CamEvent.startOk =>
      if s.btnScanVisible then startCameraSuccess s else (s, [])
  | CamEvent.startFailEarly =>
      if s.btnScanVisible then startCameraFailEarly s else (s, [])
  | CamEvent.startFailLate =>
      if s.btnScanVisible then startCameraFailLate s else (s, [])
  | CamEvent.stop => stopCamera s
  | CamEvent.snap blob =>
      let (s1, ops, _) := capturePhoto s blob
      (s1, ops)

/-- Camera state after page load: no stream, no live tracks, dropzone and
scan button visible. -/
def initialCamera : CameraState :=
  { cameraStream := none
    liveStreams := []
    nextId := 0
    feedSrcObject := none
    cameraInterfaceVisible := false
    dropzoneVisible := true
    btnScanVisible := true }

/-- States reachable from page load via camera events. -/
inductive CamReachable : CameraState → Prop
  | init : CamReachable initialCamera
  | step {s : CameraState} (e : CamEvent) :
      CamReachable s → CamReachable (camStep s e).1

/-- The camera invariant maintained by every event: the live-track streams
are exactly the one held in `cameraStream` (none when it is null), and the
scan button is visible only when no session is held. -/
def CamInvariant (s : CameraState) : Prop :=
  (match s.cameraStream with
   | some id => s.liveStreams = [id]
   | none => s.liveStreams = []) ∧
  (s.btnScanVisible = true → s.cameraStream = none)

/-! ## Concrete fixtures used by witnesses and counterexamples -/

/-- A typical picked file, spec Scenario A. -/
def photoPng : JsFile := { name := "photo.png", mime := "image/png" }

/-- A rejected file, spec Scenario B. -/
def docPdf : JsFile := { name := "doc.pdf", mime := "application/pdf" }

/-- The filename shape `capturePhoto` generates. -/
def capturedJpg : JsFile :=
  { name := "camera_capture_1700000000000.jpg", mime := "image/jpeg" }

/-- An upper-case-named image (C10). -/
def photoUpperPng : JsFile := { name := "PHOTO.PNG", mime := "image/png" }

/-- Dotless filenames equal to an allowed extension (C10). -/
def dotlessPng : JsFile := { name := "png", mime := "image/png" }

/-- Dotless `jpg` filename (C10). -/
def dotlessJpg : JsFile := { name := "jpg", mime := "image/jpeg" }

/-- Dotless `jpeg` filename (C10). -/
def dotlessJpeg : JsFile := { name := "jpeg", mime := "image/jpeg" }

/-- A data URL as produced by `FileReader.readAsDataURL`. -/
def dataUrlSample : String := "data:image/png;base64,QUJD"

/-- Upload state after a valid manual pick of `photo.png` finished its
preview decode: the PreviewReady fixture. -/
def previewState : UploadState :=
  (handleFileRun initialUpload photoPng false dataUrlSample).1

/-- Camera state right after a successful start from the initial page:
the one-session CameraActive fixture. -/
def camActive : CameraState := (camStep initialCamera CamEvent.startOk).1

/-! ## Theorems for the claims -/

/-- C3: for every file whose extension (lowercased last-dot segment) is
outside the allow-set, `handleFile` alerts the InvalidFileType message and
performs no state change at all — `selectedFile`, the preview, the submit
button and the whole UI are returned untouched, and no preview decode is
started. -/
theorem C3_invalid_file_rejected_unchanged (st : UploadState) (file : JsFile)
    (h : allowedExtensions.contains (fileExtension file.name) = false) :
    handleFileSync st file =
      (st, ["Invalid file type. Please upload a PNG, JPG, or JPEG image."], false) := by
  unfold handleFileSync
  rw [h]
  simp

/-- C3 witness: `doc.pdf` is rejected from the initial state with the
alert and no state change. -/
theorem C3_invalid_file_rejected_unchanged_witness :
    allowedExtensions.contains (fileExtension docPdf.name) = false ∧
    handleFileSync initialUpload docPdf =
      (initialUpload, ["Invalid file type. Please upload a PNG, JPG, or JPEG image."], false) :=
  ⟨by decide, C3_invalid_file_rejected_unchanged initialUpload docPdf (by decide)⟩

/-- C5: `classifyImage` with no `selectedFile` alerts NoImageSelected and
returns at once: the state (busy indicator included) is unchanged and no
fetch event is emitted — the POST to /predict is never reached. -/
theorem C5_no_image_fails_fast (st : UploadState) (outcome : FetchOutcome)
    (h : st.selectedFile = none) :
    classifyImage st outcome =
      (st, [UIEvent.alertEv "Please select an image first."]) ∧
    UIEvent.fetchEv ∉ (classifyImage st outcome).2 := by
  constructor
  · simp [classifyImage, h]
  · simp [classifyImage, h]

/-- C5 witness: from the initial state, even with a would-be throwing
transport, the call alerts and issues nothing. -/
theorem C5_no_image_fails_fast_witness :
    initialUpload.selectedFile = none ∧
    (classifyImage initialUpload FetchOutcome.throws =
      (initialUpload, [UIEvent.alertEv "Please select an image first."]) ∧
     UIEvent.fetchEv ∉ (classifyImage initialUpload FetchOutcome.throws).2) :=
  ⟨rfl, C5_no_image_fails_fast initialUpload FetchOutcome.throws rfl⟩

/-- C7: for every file with an allowed extension, once `handleFile` has
completed (the preview decode applied), the UI is in PreviewReady — the
preview shows the decoded image, the dropzone helper text is hidden and the
submit button is enabled — and the file became the `selectedFile`.  The
`uploadFormVisible`/`resultsPanelVisible` hypotheses say the run starts
outside ResultShown (handleFile does not touch those two flags). -/
theorem C7_valid_file_preview_ready (st : UploadState) (file : JsFile)
    (autoClassify : Bool) (dataUrl : String)
    (h : allowedExtensions.contains (fileExtension file.name) = true)
    (hform : st.ui.uploadFormVisible = true)
    (hres : st.ui.resultsPanelVisible = false) :
    isPreviewReady (handleFileRun st file autoClassify dataUrl).1 ∧
    (handleFileRun st file autoClassify dataUrl).1.selectedFile = some file ∧
    (handleFileRun st file autoClassify dataUrl).1.ui.previewImage = some dataUrl := by
  unfold handleFileRun handleFileSync applyPreview isPreviewReady
  rw [h]
  simp [hform, hres]

/-- C7 witness: picking `photo.png` from the initial state ends in
PreviewReady with the decoded preview applied. -/
theorem C7_valid_file_preview_ready_witness :
    allowedExtensions.contains (fileExtension photoPng.name) = true ∧
    initialUpload.ui.uploadFormVisible = true ∧
    initialUpload.ui.resultsPanelVisible = false ∧
    (isPreviewReady (handleFileRun initialUpload photoPng false dataUrlSample).1 ∧
     (handleFileRun initialUpload photoPng false dataUrlSample).1.selectedFile = some photoPng ∧
     (handleFileRun initialUpload photoPng false dataUrlSample).1.ui.previewImage =
       some dataUrlSample) :=
  ⟨by decide, rfl, rfl,
   C7_valid_file_preview_ready initialUpload photoPng false dataUrlSample
     (by decide) rfl rfl⟩

/-- C8: `stopCamera` is idempotent.  With no session held it emits no
device operation; if additionally the UI is already outside CameraActive
the whole state is unchanged; and a second call right after a first one
changes nothing and stops no track. -/
theorem C8_stop_camera_idempotent (s : CameraState) :
    (s.cameraStream = none → (stopCamera s).2 = []) ∧
    (s.cameraStream = none → s.feedSrcObject = none →
      s.cameraInterfaceVisible = false → s.dropzoneVisible = true →
      s.btnScanVisible = true → (stopCamera s).1 = s) ∧
    (stopCamera (stopCamera s).1).1 = (stopCamera s).1 ∧
    (stopCamera (stopCamera s).1).2 = [] := by
  obtain ⟨cs, ls, ni, fs, ci, dz, bs⟩ := s
  cases cs with
  | none =>
      refine ⟨fun _ => rfl, ?_, ?_, ?_⟩
      · intro _ hfs hci hdz hbs
        simp_all [stopCamera]
      · rfl
      · rfl
  | some id =>
      refine ⟨fun hc => by simp_all, fun hc => by simp_all, ?_, ?_⟩
      · rfl
      · rfl

/-- C8 witness: on the initial (no-session) state `stopCamera` emits no
device operation and changes nothing, and repeating it is the same. -/
theorem C8_stop_camera_idempotent_witness :
    initialCamera.cameraStream = none ∧
    (stopCamera initialCamera).2 = [] ∧
    (stopCamera initialCamera).1 = initialCamera ∧
    (stopCamera (stopCamera initialCamera).1).1 = (stopCamera initialCamera).1 ∧
    (stopCamera (stopCamera initialCamera).1).2 = [] :=
  ⟨rfl,
   (C8_stop_camera_idempotent initialCamera).1 rfl,
   (C8_stop_camera_idempotent initialCamera).2.1 rfl rfl rfl rfl rfl,
   (C8_stop_camera_idempotent initialCamera).2.2.1,
   (C8_stop_camera_idempotent initialCamera).2.2.2⟩

/-- C1 counterexample: from the active-session state, when `toBlob` yields
a null blob, `capturePhoto` does NOT tear the session down — the stream
handle is still set, the stream's tracks are still live, and no stop-tracks
device operation was emitted.  This refutes the claim that teardown happens
"also on the path where the encoder yields a null blob". -/
theorem C1_null_blob_keeps_session :
    camActive.cameraStream = some 0 ∧
    (capturePhoto camActive BlobResult.null).1.cameraStream = some 0 ∧
    0 ∈ (capturePhoto camActive BlobResult.null).1.liveStreams ∧
    (capturePhoto camActive BlobResult.null).2.1 = [] := by
  decide

/-- C1 (amended): with an active session, `capturePhoto` tears the session
down (handle cleared, the stream's tracks stopped, a stop-tracks operation
emitted) before handing the image over ONLY on the path where encoding
succeeds; on a null blob it alerts and leaves the session and state
entirely unchanged, stopping no track. -/
theorem C1_capture_teardown_on_encode_success (s : CameraState) (id : Nat)
    (h : s.cameraStream = some id) :
    ((capturePhoto s BlobResult.ok).1.cameraStream = none ∧
     id ∉ (capturePhoto s BlobResult.ok).1.liveStreams ∧
     (capturePhoto s BlobResult.ok).2.1 = [DeviceOp.stopTracks id] ∧
     (capturePhoto s BlobResult.ok).2.2 = CaptureEffect.handed false) ∧
    ((capturePhoto s BlobResult.null).1 = s ∧
     (capturePhoto s BlobResult.null).2.1 = [] ∧
     (capturePhoto s BlobResult.null).2.2 = CaptureEffect.encodeFailed) := by
  simp [capturePhoto, stopCamera, h, List.mem_filter]

/-- C1 witness: the amended behaviour at the concrete active-session
state. -/
theorem C1_capture_teardown_on_encode_success_witness :
    camActive.cameraStream = some 0 ∧
    (((capturePhoto camActive BlobResult.ok).1.cameraStream = none ∧
      0 ∉ (capturePhoto camActive BlobResult.ok).1.liveStreams ∧
      (capturePhoto camActive BlobResult.ok).2.1 = [DeviceOp.stopTracks 0] ∧
      (capturePhoto camActive BlobResult.ok).2.2 = CaptureEffect.handed false) ∧
     ((capturePhoto camActive BlobResult.null).1 = camActive ∧
      (capturePhoto camActive BlobResult.null).2.1 = [] ∧
      (capturePhoto camActive BlobResult.null).2.2 = CaptureEffect.encodeFailed)) :=
  ⟨rfl, C1_capture_teardown_on_encode_success camActive 0 rfl⟩

/-- C2: the code slip behind the missing auto-submit.  On a successful
capture, static/camera.js hands the file to `handleFile` with the
auto-classify flag unset (it passes no second argument, so the parameter
defaults to false), and a `handleFile` run with the flag false never
invokes `classifyImage`; the variant camera script passes `true`, but its
paired `handleFile` variant has no such parameter and ignores it.  Either
pairing therefore requires a further user gesture, against the documented
auto-classify intent. -/
theorem C2_capture_autosubmit_flag_unset :
    (capturePhoto camActive BlobResult.ok).2.2 = CaptureEffect.handed false ∧
    (handleFileRun initialUpload capturedJpg false dataUrlSample).2.2 = false ∧
    (capturePhotoVariant camActive BlobResult.ok).2.2 = CaptureEffect.handed true ∧
    handleFileVariantTriggersClassify capturedJpg = false := by
  decide

/-- C4: with a file selected, every settled run of `classifyImage` — payload
success, payload failure, malformed JSON, thrown transport exception —
emits `hideLoading` exactly once (and `showLoading` exactly once before
it), and the final state has the busy indicator reverted: submit button
enabled, spinner hidden, caption restored. -/
theorem C4_busy_indicator_reverted_once (st : UploadState) (f : JsFile)
    (outcome : FetchOutcome) (h : st.selectedFile = some f) :
    (classifyImage st outcome).2.count UIEvent.hideLoadingEv = 1 ∧
    (classifyImage st outcome).2.count UIEvent.showLoadingEv = 1 ∧
    (classifyImage st outcome).1.ui.submitDisabled = false ∧
    (classifyImage st outcome).1.ui.spinnerVisible = false ∧
    (classifyImage st outcome).1.ui.buttonText = "Classify Plastic" := by
  cases outcome with
  | throws =>
      simp [classifyImage, h, hideLoading, showLoading, List.count_cons]
  | response ok body =>
      cases body with
      | malformed =>
          simp [classifyImage, h, hideLoading, showLoading, List.count_cons]
      | parsed success err pred =>
          cases ok <;> cases success <;>
            simp [classifyImage, h, hideLoading, showLoading, displayResults,
              List.count_cons]

/-- C4 witness: from the PreviewReady fixture with a payload-failure
response, the busy indicator is shown and reverted exactly once and ends
reverted. -/
theorem C4_busy_indicator_reverted_once_witness :
    previewState.selectedFile = some photoPng ∧
    ((classifyImage previewState
        (FetchOutcome.response true (JsonBody.parsed false none ""))).2.count
        UIEvent.hideLoadingEv = 1 ∧
     (classifyImage previewState
        (FetchOutcome.response true (JsonBody.parsed false none ""))).2.count
        UIEvent.showLoadingEv = 1 ∧
     (classifyImage previewState
        (FetchOutcome.response true (JsonBody.parsed false none ""))).1.ui.submitDisabled
        = false ∧
     (classifyImage previewState
        (FetchOutcome.response true (JsonBody.parsed false none ""))).1.ui.spinnerVisible
        = false ∧
     (classifyImage previewState
        (FetchOutcome.response true (JsonBody.parsed false none ""))).1.ui.buttonText
        = "Classify Plastic") :=
  ⟨by decide,
   C4_busy_indicator_reverted_once previewState photoPng
     (FetchOutcome.response true (JsonBody.parsed false none "")) (by decide)⟩

/-- C6: with a file selected, `classifyImage` reaches `displayResults` iff
the transport succeeded AND the payload indicates success; then the state
is ResultShown with the label set to the payload's prediction and the
preview cleared.  When `displayResults` is not reached, an alert is raised
and the form/results visibility (the UI mode) is unchanged; at most one
fetch is ever issued (no retry); and whenever a parsed payload did not
yield success, the alert carries the server-provided error message
(defaulted to "Unknown error" when absent or empty). -/
theorem C6_response_interpretation (st : UploadState) (f : JsFile)
    (outcome : FetchOutcome) (h : st.selectedFile = some f) :
    (UIEvent.displayResultsEv ∈ (classifyImage st outcome).2 ↔
      ∃ err pred, outcome = FetchOutcome.response true (JsonBody.parsed true err pred)) ∧
    (∀ err pred, outcome = FetchOutcome.response true (JsonBody.parsed true err pred) →
      isResultShown (classifyImage st outcome).1 pred) ∧
    (UIEvent.displayResultsEv ∉ (classifyImage st outcome).2 →
      (∃ msg, UIEvent.alertEv msg ∈ (classifyImage st outcome).2) ∧
      (classifyImage st outcome).1.ui.uploadFormVisible = st.ui.uploadFormVisible ∧
      (classifyImage st outcome).1.ui.resultsPanelVisible = st.ui.resultsPanelVisible) ∧
    (classifyImage st outcome).2.count UIEvent.fetchEv ≤ 1 ∧
    (∀ ok success err pred,
      outcome = FetchOutcome.response ok (JsonBody.parsed success err pred) →
      (ok && success) = false →
      UIEvent.alertEv ("Classification Error: " ++ errorOrUnknown err) ∈
        (classifyImage st outcome).2) := by
  cases outcome with
  | throws =>
      simp [classifyImage, h, hideLoading, showLoading, List.count_cons]
  | response ok body =>
      cases body with
      | malformed =>
          simp [classifyImage, h, hideLoading, showLoading, List.count_cons]
      | parsed success err pred =>
          cases ok <;> cases success <;>
            simp [classifyImage, h, hideLoading, showLoading, displayResults,
              isResultShown, List.count_cons]

/-- C6 witness: the PreviewReady fixture with a success payload ends in
ResultShown, and the whole interpretation property holds there. -/
theorem C6_response_interpretation_witness :
    previewState.selectedFile = some photoPng ∧
    ((UIEvent.displayResultsEv ∈ (classifyImage previewState
        (FetchOutcome.response true (JsonBody.parsed true none "HDPE"))).2 ↔
      ∃ err pred, FetchOutcome.response true (JsonBody.parsed true none "HDPE") =
        FetchOutcome.response true (JsonBody.parsed true err pred)) ∧
     (∀ err pred, FetchOutcome.response true (JsonBody.parsed true none "HDPE") =
        FetchOutcome.response true (JsonBody.parsed true err pred) →
      isResultShown (classifyImage previewState
        (FetchOutcome.response true (JsonBody.parsed true none "HDPE"))).1 pred) ∧
     (UIEvent.displayResultsEv ∉ (classifyImage previewState
        (FetchOutcome.response true (JsonBody.parsed true none "HDPE"))).2 →
      (∃ msg, UIEvent.alertEv msg ∈ (classifyImage previewState
        (FetchOutcome.response true (JsonBody.parsed true none "HDPE"))).2) ∧
      (classifyImage previewState
        (FetchOutcome.response true (JsonBody.parsed true none "HDPE"))).1.ui.uploadFormVisible
        = previewState.ui.uploadFormVisible ∧
      (classifyImage previewState
        (FetchOutcome.response true (JsonBody.parsed true none "HDPE"))).1.ui.resultsPanelVisible
        = previewState.ui.resultsPanelVisible) ∧
     (classifyImage previewState
        (FetchOutcome.response true (JsonBody.parsed true none "HDPE"))).2.count
        UIEvent.fetchEv ≤ 1 ∧
     (∀ ok success err pred,
      FetchOutcome.response true (JsonBody.parsed true none "HDPE") =
        FetchOutcome.response ok (JsonBody.parsed success err pred) →
      (ok && success) = false →
      UIEvent.alertEv ("Classification Error: " ++ errorOrUnknown err) ∈
        (classifyImage previewState
          (FetchOutcome.response true (JsonBody.parsed true none "HDPE"))).2)) :=
  ⟨by decide,
   C6_response_interpretation previewState photoPng
     (FetchOutcome.response true (JsonBody.parsed true none "HDPE")) (by decide)⟩

/-- Every camera event preserves the camera invariant. -/
theorem camInvariant_step (s : CameraState) (e : CamEvent)
    (hs : CamInvariant s) : CamInvariant (camStep s e).1 := by
  obtain ⟨h1, h2⟩ := hs
  cases e with
  | startOk =>
      by_cases hb : s.btnScanVisible = true
      · have hc := h2 hb
        rw [hc] at h1
        simp [camStep, hb, startCameraSuccess, CamInvariant, h1]
      · simp only [Bool.not_eq_true] at hb
        simp only [camStep, hb, if_neg Bool.false_ne_true]
        exact ⟨h1, h2⟩
  | startFailEarly =>
      by_cases hb : s.btnScanVisible = true
      · have hc := h2 hb
        rw [hc] at h1
        simp [camStep, hb, startCameraFailEarly, stopCamera, hc, CamInvariant, h1]
      · simp only [Bool.not_eq_true] at hb
        simp only [camStep, hb, if_neg Bool.false_ne_true]
        exact ⟨h1, h2⟩
  | startFailLate =>
      by_cases hb : s.btnScanVisible = true
      · have hc := h2 hb
        rw [hc] at h1
        simp [camStep, hb, startCameraFailLate, stopCamera, CamInvariant, h1]
      · simp only [Bool.not_eq_true] at hb
        simp only [camStep, hb, if_neg Bool.false_ne_true]
        exact ⟨h1, h2⟩
  | stop =>
      cases hcs : s.cameraStream with
      | none =>
          rw [hcs] at h1
          simp [camStep, stopCamera, hcs, CamInvariant, h1]
      | some id =>
          rw [hcs] at h1
          simp [camStep, stopCamera, hcs, CamInvariant, h1]
  | snap blob =>
      cases hcs : s.cameraStream with
      | none =>
          simp only [camStep, capturePhoto, hcs]
          rw [hcs] at h1
          exact ⟨by simp [hcs, h1], h2⟩
      | some id =>
          rw [hcs] at h1
          cases blob with
          | ok => simp [camStep, capturePhoto, stopCamera, hcs, CamInvariant, h1]
          | null =>
              simp only [camStep, capturePhoto, hcs]
              exact ⟨by simp [hcs, h1], h2⟩

/-- Every reachable camera state satisfies the camera invariant. -/
theorem camInvariant_reachable {s : CameraState} (h : CamReachable s) :
    CamInvariant s := by
  induction h with
  | init => exact ⟨rfl, fun _ => rfl⟩
  | step e _ ih => exact camInvariant_step _ e ih

/-- C9 counterexample: from the reachable one-session state, the success
path of `startCamera` run with the session still active overwrites the
stream handle with the new stream while the previous stream's tracks stay
live and no stop-tracks operation is emitted: two streams with unstopped
tracks.  This refutes "supersedes the previous one without leaving its
device tracks running". -/
theorem C9_start_leaves_previous_tracks_running :
    camActive.cameraStream = some 0 ∧
    (startCameraSuccess camActive).1.cameraStream = some 1 ∧
    0 ∈ (startCameraSuccess camActive).1.liveStreams ∧
    DeviceOp.stopTracks 0 ∉ (startCameraSuccess camActive).2 ∧
    (startCameraSuccess camActive).1.liveStreams.length = 2 := by
  decide

/-- C9 (amended): in every reachable state at most one stream has
unstopped tracks — but this holds because the scan button is hidden while
a session is active, so a start event is then a no-op in the event system;
`startCamera` itself performs no supersession cleanup. -/
theorem C9_at_most_one_live_session (s : CameraState) (h : CamReachable s) :
    s.liveStreams.length ≤ 1 ∧
    (s.btnScanVisible = false → camStep s CamEvent.startOk = (s, [])) := by
  obtain ⟨h1, h2⟩ := camInvariant_reachable h
  constructor
  · cases hcs : s.cameraStream with
    | none => rw [hcs] at h1; simp [h1]
    | some id => rw [hcs] at h1; simp [h1]
  · intro hb
    simp [camStep, hb]

/-- C9 witness: the amended property at the reachable one-session state. -/
theorem C9_at_most_one_live_session_witness :
    camActive.liveStreams.length ≤ 1 ∧
    (camActive.btnScanVisible = false →
      camStep camActive CamEvent.startOk = (camActive, [])) :=
  C9_at_most_one_live_session camActive
    (CamReachable.step CamEvent.startOk CamReachable.init)

/-- Splitting on dots never revisits a dot-free list: the last segment of
a dot-free character list is the list itself (after the accumulator). -/
theorem lastDotSegment_no_dot (l : List Char) (acc : List Char)
    (h : '.' ∉ l) : lastDotSegment l acc = acc.reverse ++ l := by
  induction l generalizing acc with
  | nil => simp [lastDotSegment]
  | cons c rest ih =>
      have hc : ¬ c = '.' := fun hcc => h (hcc ▸ List.mem_cons_self c rest)
      have hr : '.' ∉ rest := fun hm => h (List.mem_cons_of_mem c hm)
      simp [lastDotSegment, hc, ih (c :: acc) hr]

/-- C10: extension validation lowercases the substring after the last dot
— so `PHOTO.PNG` is accepted and becomes the selected image — and for a
dot-free filename the whole (lowercased) name is the extension, so files
named exactly `png`, `jpg` or `jpeg` pass validation and become the
selected image. -/
theorem C10_extension_lowercased_last_segment :
    (∀ name : String, '.' ∉ name.data →
      fileExtension name = String.mk (name.data.map Char.toLower)) ∧
    allowedExtensions.contains (fileExtension photoUpperPng.name) = true ∧
    (handleFileSync initialUpload photoUpperPng).1.selectedFile = some photoUpperPng ∧
    (handleFileSync initialUpload dotlessPng).1.selectedFile = some dotlessPng ∧
    (handleFileSync initialUpload dotlessJpg).1.selectedFile = some dotlessJpg ∧
    (handleFileSync initialUpload dotlessJpeg).1.selectedFile = some dotlessJpeg := by
  refine ⟨?_, by decide, by decide, by decide, by decide, by decide⟩
  intro name hname
  unfold fileExtension
  rw [lastDotSegment_no_dot name.data [] hname]
  simp

/-- C10 witness: the dot-free rule applied at the concrete name `jpeg`. -/
theorem C10_extension_lowercased_last_segment_witness :
    '.' ∉ dotlessJpeg.name.data ∧
    fileExtension dotlessJpeg.name =
      String.mk (dotlessJpeg.name.data.map Char.toLower) :=
  ⟨by decide,
   C10_extension_lowercased_last_segment.1 dotlessJpeg.name (by decide)⟩

end RecycLens
